import Mathlib

/-!
Verification development for the SQL optimization-and-validation pipeline
(`src/agent/optimizer.py`, `src/agent/validator.py`).

Strings are embedded as `List Char` (Python `str` over its ASCII fragment:
`str.upper` / `str.lower` are modelled as ASCII case mapping, which is exact
for every string the pipeline manipulates).  Python's `re` module is embedded
by a small fuel-bounded backtracking engine (`Rx`, `mrun`) that mirrors
`re.search` / `re.sub` / `re.finditer` / `re.split` semantics for the regex
features the source actually uses: literals, character classes, `.`,
greedy and lazy repetition, alternation (leftmost preference), groups,
backreferences, word boundaries, `$`, and lookahead.  The fuel only bounds
recursion depth; every concrete evaluation below is run with ample fuel.
-/

/-- Python strings, over their ASCII fragment. -/
abbrev Str := List Char

/-- A string literal as a `Str`. -/
def toL (s : String) : Str := s.toList

/-- The single-quote character (kept out of string literals). -/
def qc : Char := '\''

/-- ASCII lowercase of one character (fragment of Python `str.lower`). -/
def lowerCh (c : Char) : Char :=
  if 'A' ≤ c ∧ c ≤ 'Z' then Char.ofNat (c.toNat + 32) else c

/-- ASCII uppercase of one character (fragment of Python `str.upper`). -/
def upperCh (c : Char) : Char :=
  if 'a' ≤ c ∧ c ≤ 'z' then Char.ofNat (c.toNat - 32) else c

/-- Python `str.upper` (ASCII fragment). -/
def pyUpper (s : Str) : Str := s.map upperCh

/-- Python `str.lower` (ASCII fragment). -/
def pyLower (s : Str) : Str := s.map lowerCh

/-- Python regex `\w` over ASCII (letters, digits, underscore). -/
def isWordCh (c : Char) : Bool :=
  ('a' ≤ c && c ≤ 'z') || ('A' ≤ c && c ≤ 'Z') || ('0' ≤ c && c ≤ '9') || c == '_'

/-- Python regex `\s` over ASCII (space, tab, newline, CR, VT, FF). -/
def isSpaceCh (c : Char) : Bool :=
  c == ' ' || c == '\t' || c == '\n' || c == '\r' || c == '\x0b' || c == '\x0c'

/-- Python regex `\d` over ASCII. -/
def isDigitCh (c : Char) : Bool := '0' ≤ c && c ≤ '9'

/-- Does `pat` occur at the very start of `s`?  (The core of Python
`str.startswith` and of substring search.) -/
def begMatch : Str → Str → Bool
  | [], _ => true
  | _ :: _, [] => false
  | p :: ps, s :: ss => p == s && begMatch ps ss

/-- Python `pat in s` (substring containment). -/
def hasSub : Str → Str → Bool
  | [], pat => begMatch pat []
  | c :: t, pat => begMatch pat (c :: t) || hasSub t pat

/-- Python `s.endswith(suffix)`. -/
def endsL (s suffix : Str) : Bool := begMatch suffix.reverse s.reverse

/-- Python `s.startswith((p1, p2, ...))`. -/
def startsAny (s : Str) (pats : List Str) : Bool := pats.any (fun p => begMatch p s)

/-- Python `str.strip()` (whitespace from both ends). -/
def pyStrip (s : Str) : Str :=
  ((s.dropWhile isSpaceCh).reverse.dropWhile isSpaceCh).reverse

/-- Python `str.rstrip(';')` (all trailing semicolons). -/
def pyRstripSemi (s : Str) : Str :=
  (s.reverse.dropWhile (fun c => c == ';')).reverse

/-- Python `str.count(pat)`: number of non-overlapping occurrences, scanning
left to right.  (Only ever called with a non-empty `pat` in the source.)
The fuel argument is initialized with the string length, which each step
stays below, so the zero-fuel arm is never reached. -/
def countSubGo (pat : Str) : Nat → Str → Nat
  | _, [] => 0
  | 0, _ :: _ => 0
  | f + 1, c :: rest =>
    if begMatch pat (c :: rest) then 1 + countSubGo pat f (List.drop (pat.length - 1) rest)
    else countSubGo pat f rest

def countSub (s pat : Str) : Nat :=
  if pat.isEmpty then s.length + 1 else countSubGo pat s.length s

/-- Python `str.replace(pat, rep)` for a non-empty `pat`: replace every
non-overlapping occurrence, scanning left to right.  Fuel as in
`countSubGo`. -/
def replaceGo (pat rep : Str) : Nat → Str → Str
  | _, [] => []
  | 0, s => s
  | f + 1, c :: rest =>
    if begMatch pat (c :: rest) then rep ++ replaceGo pat rep f (List.drop (pat.length - 1) rest)
    else c :: replaceGo pat rep f rest

def pyReplace (s pat rep : Str) : Str :=
  if pat.isEmpty then s else replaceGo pat rep s.length s

/-- Python `str.split(sep)` for a one-character separator. -/
def splitChar (sep : Char) : Str → List Str
  | [] => [[]]
  | c :: rest =>
    if c == sep then [] :: splitChar sep rest
    else match splitChar sep rest with
      | [] => [[c]]
      | p :: ps => (c :: p) :: ps

/-- Python `sep.join(parts)`. -/
def joinSep (sep : Str) : List Str → Str
  | [] => []
  | [x] => x
  | x :: xs => x ++ sep ++ joinSep sep xs

/-- First-occurrence deduplication.  Models Python's `list(set(xs))` /
`set(xs)` iteration up to ordering (CPython's set order is unspecified; no
claim below depends on it). -/
def dedupFirst : List Str → List Str :=
  go []
where
  go : List Str → List Str → List Str
    | _, [] => []
    | seen, x :: xs => if x ∈ seen then go seen xs else x :: go (x :: seen) xs

/-- Decimal digits of a natural number (Python `str(n)` for `n ≥ 0`). -/
def natDigitsAux : Nat → Nat → Str → Str
  | 0, _, acc => acc
  | f + 1, n, acc =>
    if n < 10 then Char.ofNat (48 + n) :: acc
    else natDigitsAux f (n / 10) (Char.ofNat (48 + n % 10) :: acc)

def natDigits (n : Nat) : Str := natDigitsAux (n + 1) n []

/-- Python `str(n)` for an `Int`. -/
def intDigits (n : Int) : Str :=
  if n < 0 then '-' :: natDigits n.natAbs else natDigits n.toNat

/-! ## A small backtracking regex engine (embedding of Python `re`) -/

/-- One member of a character class. -/
inductive CItem where
  | wordc : CItem
  | spacec : CItem
  | digitc : CItem
  | one : Char → CItem
  | rng : Char → Char → CItem

def citemMatch : CItem → Char → Bool
  | .wordc, c => isWordCh c
  | .spacec, c => isSpaceCh c
  | .digitc, c => isDigitCh c
  | .one a, c => a == c
  | .rng lo hi, c => lo ≤ c && c ≤ hi

/-- Regex abstract syntax, covering exactly the constructs used by the
source's patterns. -/
inductive Rx where
  | eps : Rx
  | ch : Char → Rx
  | cls : Bool → List CItem → Rx     -- negated? , members
  | anyc : Rx                        -- `.` (anything but a newline)
  | seq : Rx → Rx → Rx
  | alt : Rx → Rx → Rx               -- leftmost preference
  | star : Bool → Rx → Rx            -- greedy? , body (zero or more)
  | grp : Nat → Rx → Rx              -- capturing group
  | bref : Nat → Rx                  -- backreference
  | bnd : Rx                         -- `\b`
  | eol : Rx                         -- `$`
  | look : Rx → Rx                   -- `(?=...)`

/-- Character comparison, optionally case-insensitive (`re.IGNORECASE`). -/
def charEq (ci : Bool) (p c : Char) : Bool :=
  if ci then lowerCh p == lowerCh c else p == c

/-- Class membership under optional `re.IGNORECASE` (a class matches a
character if the character or one of its case variants is in the class). -/
def clsMatch (ci neg : Bool) (items : List CItem) (c : Char) : Bool :=
  let inS := items.any (fun it => citemMatch it c) ||
    (ci && (items.any (fun it => citemMatch it (lowerCh c)) ||
            items.any (fun it => citemMatch it (upperCh c))))
  if neg then !inS else inS

/-- Captured groups: `(index, text)`, most recent first. -/
abbrev Caps := List (Nat × Str)

def lookupCap : Caps → Nat → Option Str
  | [], _ => none
  | (j, t) :: r, i => if j = i then some t else lookupCap r i

/-- Consume the literal text of a backreference. -/
def refConsume (ci : Bool) : Str → Option Char → Str → Option (Option Char × Str)
  | [], prev, s => some (prev, s)
  | _ :: _, _, [] => none
  | c :: cs, _, x :: xs =>
    if charEq ci c x then refConsume ci cs (some x) xs else none

/-- The matcher.  `mrun fuel ci r prev s caps k` tries to match `r` at the
start of `s` (`prev` is the character just before `s`, for `\b`), calling the
continuation `k` with the rest of the input and updated captures on each
candidate match, in Python's preference order (first success wins).  The fuel
bounds recursion depth only. -/
def mrun : Nat → Bool → Rx → Option Char → Str → Caps →
    (Option Char → Str → Caps → Option (Str × Caps)) → Option (Str × Caps)
  | 0, _, _, _, _, _, _ => none
  | fl + 1, ci, r, prev, s, caps, k =>
    match r with
    | .eps => k prev s caps
    | .ch c =>
      match s with
      | [] => none
      | x :: xs => if charEq ci c x then k (some x) xs caps else none
    | .cls neg items =>
      match s with
      | [] => none
      | x :: xs => if clsMatch ci neg items x then k (some x) xs caps else none
    | .anyc =>
      match s with
      | [] => none
      | x :: xs => if x == '\n' then none else k (some x) xs caps
    | .seq a b => mrun fl ci a prev s caps (fun p2 s2 c2 => mrun fl ci b p2 s2 c2 k)
    | .alt a b =>
      match mrun fl ci a prev s caps k with
      | some res => some res
      | none => mrun fl ci b prev s caps k
    | .star g a =>
      let more := fun (_ : Unit) =>
        mrun fl ci a prev s caps (fun p2 s2 c2 =>
          if s2.length < s.length then mrun fl ci (.star g a) p2 s2 c2 k else none)
      if g then
        match more () with
        | some res => some res
        | none => k prev s caps
      else
        match k prev s caps with
        | some res => some res
        | none => more ()
    | .grp i a =>
      mrun fl ci a prev s caps (fun p2 s2 c2 =>
        k p2 s2 ((i, s.take (s.length - s2.length)) :: c2))
    | .bref i =>
      match lookupCap caps i with
      | none => none
      | some t =>
        match refConsume ci t prev s with
        | none => none
        | some (p2, s2) => k p2 s2 caps
    | .bnd =>
      let before := match prev with | none => false | some c => isWordCh c
      let after := match s with | [] => false | x :: _ => isWordCh x
      if before != after then k prev s caps else none
    | .eol =>
      match s with
      | [] => k prev s caps
      | ['\n'] => k prev s caps
      | _ => none
    | .look a =>
      match mrun fl ci a prev s caps (fun _ s2 c2 => some (s2, c2)) with
      | some (_, c2) => k prev s c2
      | none => none

/-- Fuel ample for every evaluation in this file (depth, not step count). -/
def mfuel (s : Str) : Nat := 4 * s.length + 400

/-- Leftmost search (`re.search`): returns
`(text before the match, matched text, rest, captures)`. -/
def psearchAux (fuel : Nat) (ci : Bool) (r : Rx) :
    Option Char → Str → Str → Option (Str × Str × Str × Caps)
  | prev, s, acc =>
    match mrun fuel ci r prev s [] (fun _ s2 c2 => some (s2, c2)) with
    | some (rest, caps) =>
      some (acc.reverse, s.take (s.length - rest.length), rest, caps)
    | none =>
      match s with
      | [] => none
      | c :: cs => psearchAux fuel ci r (some c) cs (c :: acc)

def psearch (ci : Bool) (r : Rx) (s : Str) : Option (Str × Str × Str × Caps) :=
  psearchAux (mfuel s) ci r none s []

/-- Boolean `re.search`. -/
def psearchB (ci : Bool) (r : Rx) (s : Str) : Bool := (psearch ci r s).isSome

/-- `re.search(...).start()`. -/
def psearchStart (ci : Bool) (r : Rx) (s : Str) : Option Nat :=
  (psearch ci r s).map (fun m => m.1.length)

def lastCharOf (l : Str) (dflt : Option Char) : Option Char :=
  match l.getLast? with
  | some c => some c
  | none => dflt

/-- `re.finditer`: successive non-overlapping leftmost matches, each as
`(matched text, captures)`.  (Empty matches advance one character, as in
Python 3.7+; no pattern in the source can match empty.) -/
def pfindIterAux (fuel : Nat) (ci : Bool) (r : Rx) :
    Nat → Option Char → Str → List (Str × Caps)
  | 0, _, _ => []
  | it + 1, prev, s =>
    match psearchAux fuel ci r prev s [] with
    | none => []
    | some (pre, m, rest, caps) =>
      if m.isEmpty then
        match rest with
        | [] => [(m, caps)]
        | c :: cs => (m, caps) :: pfindIterAux fuel ci r it (some c) cs
      else (m, caps) :: pfindIterAux fuel ci r it (lastCharOf (pre ++ m) prev) rest

def pfindIter (ci : Bool) (r : Rx) (s : Str) : List (Str × Caps) :=
  pfindIterAux (mfuel s) ci r (s.length + 1) none s

/-- `re.sub` with a replacement function of the captures and matched text. -/
def psubAux (fuel : Nat) (ci : Bool) (r : Rx) (repl : Caps → Str → Str) :
    Nat → Option Char → Str → Str
  | 0, _, s => s
  | it + 1, prev, s =>
    match psearchAux fuel ci r prev s [] with
    | none => s
    | some (pre, m, rest, caps) =>
      if m.isEmpty then
        match rest with
        | [] => pre ++ repl caps m
        | c :: cs => pre ++ repl caps m ++ c :: psubAux fuel ci r repl it (some c) cs
      else pre ++ repl caps m ++ psubAux fuel ci r repl it (lastCharOf (pre ++ m) prev) rest

def psub (ci : Bool) (r : Rx) (repl : Caps → Str → Str) (s : Str) : Str :=
  psubAux (mfuel s) ci r repl (s.length + 1) none s

/-- `re.split` for a group-free separator pattern. -/
def psplitAux (fuel : Nat) (ci : Bool) (r : Rx) :
    Nat → Option Char → Str → List Str
  | 0, _, s => [s]
  | it + 1, prev, s =>
    match psearchAux fuel ci r prev s [] with
    | none => [s]
    | some (pre, m, rest, _) =>
      if m.isEmpty then [s]
      else pre :: psplitAux fuel ci r it (lastCharOf (pre ++ m) prev) rest

def psplit (ci : Bool) (r : Rx) (s : Str) : List Str :=
  psplitAux (mfuel s) ci r (s.length + 1) none s

/-- Group lookup with Python's "empty if unset" convention for replacement
templates (every template group in the source is set whenever its pattern
matches). -/
def capOr (caps : Caps) (i : Nat) : Str := (lookupCap caps i).getD []

/-! Pattern-building helpers. -/

def rlitL (s : Str) : Rx := s.foldr (fun c r => Rx.seq (Rx.ch c) r) Rx.eps

def rlit (s : String) : Rx := rlitL s.toList

def rseq (l : List Rx) : Rx := l.foldr Rx.seq Rx.eps

def raltL (l : List Rx) : Rx :=
  match l with
  | [] => Rx.eps
  | [x] => x
  | x :: xs => Rx.alt x (raltL xs)

def wordC : Rx := Rx.cls false [CItem.wordc]
def spaceC : Rx := Rx.cls false [CItem.spacec]
def digitC : Rx := Rx.cls false [CItem.digitc]
def nonSpaceC : Rx := Rx.cls true [CItem.spacec]

/-- `r+` (greedy). -/
def rplus (r : Rx) : Rx := Rx.seq r (Rx.star true r)

/-- `r+?` (lazy). -/
def rplusLazy (r : Rx) : Rx := Rx.seq r (Rx.star false r)

/-- `r?` (greedy). -/
def ropt (r : Rx) : Rx := Rx.alt r Rx.eps

/-! ## Data model (spec section 3, as realized by the source) -/

/-- One table's entry in `context['schema']`
(`columns` / `important_columns` are plain `.get` keys in the source). -/
structure TableInfo where
  columns : Option (List Str)
  important_columns : Option (List Str)

/-- The optional context bag passed to `optimize` / `validate`.  Each field
models presence of the corresponding dictionary key. -/
structure QueryContext where
  default_limit : Option Nat
  indexes : Option (List (Str × List Str))
  table_sizes : Option (List (Str × Nat))
  schema : Option (List (Str × TableInfo))

/-- Result of `QueryOptimizer.optimize`.  `improvement_score` is a `Nat`
because every value the source's float score can take is a whole number
(deltas 20/15/10/5/5 capped at 100). -/
structure OptimizationResult where
  original_query : Str
  optimized_query : Str
  optimizations_applied : List Str
  optimization_count : Nat
  improvement_score : Nat
  is_optimized : Bool

/-- Lookup in an association list (Python `dict[key]` for the unique-key
dictionaries supplied as context). -/
def lookupAssoc {α : Type} : List (Str × α) → Str → Option α
  | [], _ => none
  | (k, v) :: r, key => if k = key then some v else lookupAssoc r key

/-! ## QueryOptimizer (src/agent/optimizer.py)

The engine instance embedded here is the default construction
`QueryOptimizer()`: `db_type = 'sqlite'`, so the sqlite-only branches run and
the postgresql/mysql branch of `_optimize_order_by` does not.  The mutable
`self.stats` counters are engine bookkeeping that no result field depends on
and are not modelled. -/

/-- Regex `\s+`. -/
def rxWs : Rx := rplus spaceC

/-- Regex `([^\s])<op>([^\s])` used by `_normalize_whitespace` for each
operator (the operator text is inserted literally, `re.escape`d). -/
def rxOpSpacing (op : Str) : Rx :=
  rseq [Rx.grp 1 nonSpaceC, rlitL op, Rx.grp 2 nonSpaceC]

/-- The operator list of `_normalize_whitespace`, in source order. -/
def operatorsList : List Str :=
  [toL "=", toL "!=", toL "<>", toL "<=", toL ">=", toL "<", toL ">"]

/-- `_normalize_whitespace`: collapse whitespace runs, strip, then for each
operator substitute `([^\s])op([^\s])` by `\1 op \2`, in list order. -/
def normalize_whitespace (query : Str) (_context : Option QueryContext) : Str :=
  let q1 := psub false rxWs (fun _ _ => [' ']) query
  let q2 := pyStrip q1
  operatorsList.foldl
    (fun acc op =>
      psub false (rxOpSpacing op)
        (fun caps _ => capOr caps 1 ++ [' '] ++ op ++ [' '] ++ capOr caps 2) acc)
    q2

/-- The `context.get('default_limit', 100) if context else 100` expression of
`_add_limit_if_missing`. -/
def defaultLimitOf (context : Option QueryContext) : Nat :=
  match context with
  | some ctx => ctx.default_limit.getD 100
  | none => 100

/-- `_add_limit_if_missing`. -/
def add_limit_if_missing (query : Str) (context : Option QueryContext) : Str :=
  let query_upper := pyUpper query
  if hasSub query_upper (toL "LIMIT") || hasSub query_upper (toL "COUNT(") ||
      startsAny query_upper [toL "INSERT", toL "UPDATE", toL "DELETE"] then
    query
  else if begMatch (toL "SELECT") query_upper then
    pyRstripSemi query ++ toL " LIMIT " ++ natDigits (defaultLimitOf context)
  else
    query

/-- Regex `SELECT\s+\*\s+FROM\s+(\w+)`. -/
def rxSelStarFrom : Rx :=
  rseq [rlit "SELECT", rplus spaceC, Rx.ch '*', rplus spaceC,
        rlit "FROM", rplus spaceC, Rx.grp 1 (rplus wordC)]

/-- `_optimize_wildcards` (matches are taken on the incoming query, then each
match's text is `str.replace`d in the evolving query, as the lazy `finditer`
iterator in the source walks the original string object). -/
def optimize_wildcards (query : Str) (context : Option QueryContext) : Str :=
  match context with
  | none => query
  | some ctx =>
    match ctx.schema with
    | none => query
    | some schemaL =>
      let ms := pfindIter true rxSelStarFrom query
      ms.foldl
        (fun cur m =>
          let table_name := capOr m.2 1
          match lookupAssoc schemaL table_name with
          | none => cur
          | some table_info =>
            let columns := table_info.important_columns.getD (table_info.columns.getD [])
            if columns ≠ [] ∧ columns.length < 20 then
              pyReplace cur m.1
                (toL "SELECT " ++ joinSep (toL ", ") columns ++ toL " FROM " ++ table_name)
            else cur)
        query

/-- Regex `(\w+)\s+RIGHT\s+JOIN\s+(\w+)`. -/
def rxRightJoin : Rx :=
  rseq [Rx.grp 1 (rplus wordC), rplus spaceC, rlit "RIGHT", rplus spaceC,
        rlit "JOIN", rplus spaceC, Rx.grp 2 (rplus wordC)]

/-- `_convert_right_to_left_join`: substitute by `{table2} LEFT JOIN {table1}`. -/
def convert_right_to_left_join (query : Str) : Str :=
  psub true rxRightJoin
    (fun caps _ => capOr caps 2 ++ toL " LEFT JOIN " ++ capOr caps 1) query

/-- Regex `ON\s+(\w+)\.(\w+)\s*=\s*(\w+)\.(\w+)`. -/
def rxOnJoinCond : Rx :=
  rseq [rlit "ON", rplus spaceC, Rx.grp 1 (rplus wordC), Rx.ch '.',
        Rx.grp 2 (rplus wordC), Rx.star true spaceC, Rx.ch '=', Rx.star true spaceC,
        Rx.grp 3 (rplus wordC), Rx.ch '.', Rx.grp 4 (rplus wordC)]

/-- `_optimize_join_conditions`. -/
def optimize_join_conditions (query : Str) (indexes : List (Str × List Str)) : Str :=
  let ms := pfindIter true rxOnJoinCond query
  let suggestions := ms.filterMap (fun m =>
    let col1 := capOr m.2 2
    let col2 := capOr m.2 4
    let indexed := indexes.any (fun p => p.2.contains col1 || p.2.contains col2)
    if indexed then none
    else some (toL "Consider indexing " ++ col1 ++ toL " and " ++ col2))
  if suggestions.isEmpty then query
  else toL "-- Optimization suggestions: " ++ joinSep (toL "; ") suggestions ++ toL "\n" ++ query

/-- `_reorder_joins_by_size` performs no textual change (documented no-op). -/
def reorder_joins_by_size (query : Str) (_table_sizes : List (Str × Nat)) : Str :=
  query

/-- `_optimize_joins`. -/
def optimize_joins (query : Str) (context : Option QueryContext) : Str :=
  let q1 :=
    if hasSub (pyUpper query) (toL "RIGHT JOIN") then convert_right_to_left_join query
    else query
  let q2 :=
    match context with
    | some ctx =>
      match ctx.indexes with
      | some idx => optimize_join_conditions q1 idx
      | none => q1
    | none => q1
  match context with
  | some ctx =>
    match ctx.table_sizes with
    | some sizes => reorder_joins_by_size q2 sizes
    | none => q2
  | none => q2

/-- Regex `WHERE\s+(\w+)\s+IN\s*\(\s*SELECT\s+(\w+)\s+FROM\s+(\w+)`. -/
def rxInSubquery : Rx :=
  rseq [rlit "WHERE", rplus spaceC, Rx.grp 1 (rplus wordC), rplus spaceC,
        rlit "IN", Rx.star true spaceC, Rx.ch '(', Rx.star true spaceC,
        rlit "SELECT", rplus spaceC, Rx.grp 2 (rplus wordC), rplus spaceC,
        rlit "FROM", rplus spaceC, Rx.grp 3 (rplus wordC)]

/-- `_optimize_subqueries`: detects the `IN (SELECT ...)` shape, builds an
EXISTS clause string per match that is never used, and returns the query
unchanged (documented no-op in the source). -/
def optimize_subqueries (query : Str) (_context : Option QueryContext) : Str :=
  let ms := pfindIter true rxInSubquery query
  let _exists_clauses := ms.map (fun m =>
    toL "WHERE EXISTS (SELECT 1 FROM " ++ capOr m.2 3 ++ toL " WHERE " ++
      capOr m.2 3 ++ ['.'] ++ capOr m.2 2 ++ toL " = " ++ capOr m.2 1)
  query

/-- Regex `WHERE\s+(\w+)\.?(\w+)?\s*[=<>]`. -/
def rxWhereCol : Rx :=
  rseq [rlit "WHERE", rplus spaceC, Rx.grp 1 (rplus wordC), ropt (Rx.ch '.'),
        ropt (Rx.grp 2 (rplus wordC)), Rx.star true spaceC,
        Rx.cls false [CItem.one '=', CItem.one '<', CItem.one '>']]

/-- `_add_index_hints` (with `db_type = 'sqlite'` the hint comment is
prepended whenever an index matches; `set(indexes_used)` modelled by
first-occurrence dedup, see `dedupFirst`). -/
def add_index_hints (query : Str) (context : Option QueryContext) : Str :=
  match context with
  | none => query
  | some ctx =>
    match ctx.indexes with
    | none => query
    | some idx =>
      let ms := pfindIter true rxWhereCol query
      let indexes_used := ms.foldl
        (fun acc m =>
          let column :=
            match lookupCap m.2 2 with
            | some t => t
            | none => capOr m.2 1
          acc ++ idx.filterMap (fun p => if p.2.contains column then some p.1 else none))
        []
      if indexes_used.isEmpty then query
      else toL "-- Suggested indexes: " ++
        joinSep (toL ", ") (dedupFirst indexes_used) ++ toL "\n" ++ query

/-- Regex `DATE\((\w+)\)\s*=\s*'([^']+)'`. -/
def rxDateEq : Rx :=
  rseq [rlit "DATE", Rx.ch '(', Rx.grp 1 (rplus wordC), Rx.ch ')',
        Rx.star true spaceC, Rx.ch '=', Rx.star true spaceC,
        Rx.ch qc, Rx.grp 2 (rplus (Rx.cls true [CItem.one qc])), Rx.ch qc]

/-- Regex `DATE\('now', '-(\d+) days?'\)`. -/
def rxDateNow : Rx :=
  rseq [rlit "DATE", Rx.ch '(', Rx.ch qc, rlit "now", Rx.ch qc, Rx.ch ',', Rx.ch ' ',
        Rx.ch qc, Rx.ch '-', Rx.grp 1 (rplus digitC), Rx.ch ' ',
        rlit "day", ropt (Rx.ch 's'), Rx.ch qc, Rx.ch ')']

/-- Regex `DATETIME\('now', 'localtime'\)`. -/
def rxDatetimeLocal : Rx :=
  rseq [rlit "DATETIME", Rx.ch '(', Rx.ch qc, rlit "now", Rx.ch qc, Rx.ch ',', Rx.ch ' ',
        Rx.ch qc, rlit "localtime", Rx.ch qc, Rx.ch ')']

/-- `_optimize_relative_dates` (sqlite branch). -/
def optimize_relative_dates (query : Str) : Str :=
  let q1 := psub true rxDateNow
    (fun caps _ =>
      toL "DATE(" ++ [qc] ++ toL "now" ++ [qc] ++ toL ", " ++ [qc] ++ ['-'] ++
        capOr caps 1 ++ toL " days" ++ [qc] ++ [')'])
    query
  psub true rxDatetimeLocal
    (fun _ _ => toL "DATETIME(" ++ [qc] ++ toL "now" ++ [qc] ++ [')'])
    q1

/-- `_optimize_date_functions`. -/
def optimize_date_functions (query : Str) (_context : Option QueryContext) : Str :=
  let q1 := psub true rxDateEq
    (fun caps _ =>
      capOr caps 1 ++ toL " BETWEEN " ++ [qc] ++ capOr caps 2 ++ toL " 00:00:00" ++ [qc] ++
        toL " AND " ++ [qc] ++ capOr caps 2 ++ toL " 23:59:59" ++ [qc])
    query
  optimize_relative_dates q1

/-- Regex `FROM\s+([\w\s,]+?)(?:WHERE|GROUP|ORDER|LIMIT|$)`. -/
def rxFromTables : Rx :=
  rseq [rlit "FROM", rplus spaceC,
        Rx.grp 1 (rplusLazy (Rx.cls false [CItem.wordc, CItem.spacec, CItem.one ','])),
        raltL [rlit "WHERE", rlit "GROUP", rlit "ORDER", rlit "LIMIT", Rx.eol]]

/-- The warning comment line prepended by `_prevent_cartesian_product`. -/
def cartesianWarning : Str :=
  toL "-- WARNING: Potential cartesian product - consider adding JOIN conditions\n"

/-- `_prevent_cartesian_product`. -/
def prevent_cartesian_product (query : Str) (_context : Option QueryContext) : Str :=
  match psearch true rxFromTables query with
  | none => query
  | some m =>
    let tables := (splitChar ',' (capOr m.2.2.2 1)).map pyStrip
    if tables.length > 1 && !(hasSub (pyUpper query) (toL "JOIN")) then
      if !(hasSub (pyUpper query) (toL "WHERE")) then cartesianWarning ++ query
      else query
    else query

/-- `_fix_group_by_columns` returns its input (documented no-op). -/
def fix_group_by_columns (query : Str) : Str := query

/-- `_optimize_having_clause` returns its input (documented no-op). -/
def optimize_having_clause (query : Str) : Str := query

/-- `_optimize_aggregations`: the only textual change is the literal,
case-sensitive `str.replace` of `COUNT(*)` by `COUNT(1)`. -/
def optimize_aggregations (query : Str) (_context : Option QueryContext) : Str :=
  let q1 := if hasSub (pyUpper query) (toL "GROUP BY") then fix_group_by_columns query
            else query
  let q2 := pyReplace q1 (toL "COUNT(*)") (toL "COUNT(1)")
  if hasSub (pyUpper q2) (toL "HAVING") then optimize_having_clause q2 else q2

/-- Regex `\b(MIN|MAX)\s*\(`. -/
def rxMinMax : Rx :=
  rseq [Rx.bnd, Rx.grp 1 (Rx.alt (rlit "MIN") (rlit "MAX")), Rx.star true spaceC, Rx.ch '(']

/-- Regex `ORDER\s+BY\s+[^)]+(?=\s+LIMIT)`. -/
def rxOrderByBeforeLimit : Rx :=
  rseq [rlit "ORDER", rplus spaceC, rlit "BY", rplus spaceC,
        rplus (Rx.cls true [CItem.one ')']),
        Rx.look (rseq [rplus spaceC, rlit "LIMIT"])]

/-- `_optimize_order_by` (with `db_type = 'sqlite'` the
`_ensure_order_by_in_select` branch for postgresql/mysql does not run). -/
def optimize_order_by (query : Str) (_context : Option QueryContext) : Str :=
  if hasSub (pyUpper query) (toL "LIMIT 1") then
    if psearchB true rxMinMax query then
      psub true rxOrderByBeforeLimit (fun _ _ => []) query
    else query
  else query

/-- `_calculate_improvement_score`: fixed heuristic deltas, summed in source
order and capped at 100; `0.0` when nothing changed. -/
def calculate_improvement_score (original optimized : Str) : Nat :=
  if original = optimized then 0
  else
    let s1 := if hasSub optimized (toL "LIMIT") && !(hasSub original (toL "LIMIT")) then 20 else 0
    let s2 := if countSub optimized (toL "*") < countSub original (toL "*") then 15 else 0
    let s3 := if hasSub optimized (toL "EXISTS") && hasSub original (toL "IN") then 10 else 0
    let s4 := if !(hasSub optimized (toL "-- WARNING")) && optimized.length < original.length then 5 else 0
    let s5 := if hasSub optimized (toL "COUNT(1)") && hasSub original (toL "COUNT(*)") then 5 else 0
    min (s1 + s2 + s3 + s4 + s5) 100

/-- The ordered rule table of `QueryOptimizer.__init__`, each rule paired
with the human-readable name `rule.__name__.replace('_', ' ').title()`
computes for it (note the leading space coming from the leading underscore
of each method name). -/
def optimization_rules : List (Str × (Str → Option QueryContext → Str)) :=
  [(toL " Normalize Whitespace", normalize_whitespace),
   (toL " Add Limit If Missing", add_limit_if_missing),
   (toL " Optimize Wildcards", optimize_wildcards),
   (toL " Optimize Joins", optimize_joins),
   (toL " Optimize Subqueries", optimize_subqueries),
   (toL " Add Index Hints", add_index_hints),
   (toL " Optimize Date Functions", optimize_date_functions),
   (toL " Prevent Cartesian Product", prevent_cartesian_product),
   (toL " Optimize Aggregations", optimize_aggregations),
   (toL " Optimize Order By", optimize_order_by)]

/-- One iteration of the rule loop in `QueryOptimizer.optimize`: apply the
rule and record its name when the text changed. -/
def optimize_step (context : Option QueryContext) (acc : Str × List Str)
    (rule : Str × (Str → Option QueryContext → Str)) : Str × List Str :=
  let after := rule.2 acc.1 context
  if acc.1 = after then (after, acc.2) else (after, acc.2 ++ [rule.1])

/-- The rule loop of `QueryOptimizer.optimize`: final text and applied-rule
names. -/
def optimize_fold (sql_query : Str) (context : Option QueryContext) : Str × List Str :=
  optimization_rules.foldl (optimize_step context) (sql_query, [])

/-- `QueryOptimizer.optimize`: fold the rules in order, recording the name of
every rule whose output differed from its input, then score; every result
field reads the loop's final state `optimize_fold sql_query context`. -/
def optimize (sql_query : Str) (context : Option QueryContext) : OptimizationResult :=
  { original_query := sql_query
    optimized_query := (optimize_fold sql_query context).1
    optimizations_applied := (optimize_fold sql_query context).2
    optimization_count := (optimize_fold sql_query context).2.length
    improvement_score := calculate_improvement_score sql_query (optimize_fold sql_query context).1
    is_optimized := decide (sql_query ≠ (optimize_fold sql_query context).1) }

/-! ## QueryValidator (src/agent/validator.py)

The optional sqlite connection is embedded as a read-only oracle: the list of
existing table names (`_get_existing_tables`) and the `EXPLAIN QUERY PLAN`
outcome (`_validate_with_database`; `some err` models a raised
`sqlite3.Error` with that message, `none` a successful plan).  The
`timestamp` field (wall clock) and the mutable `self.stats` counters are not
part of any claim and are not modelled. -/

structure Conn where
  tables : List Str
  explainError : Str → Option Str

/-- The issue dictionaries built by the checks, one constructor per
`type` / payload shape (severity is determined by the constructor exactly as
in the source: critical for dangerous keywords, missing tables and
database-reported errors, high for suspicious patterns, multiple statements,
unbalanced tokens and cartesian products, medium for the two excessive
counts). -/
inductive Issue where
  | dangerous_keyword : Str → Issue
  | suspicious_pattern : Str → Issue
  | multiple_statements : Issue
  | unbalanced_parentheses : Issue
  | unbalanced_quotes : Issue
  | syntax_error : Str → Issue
  | excessive_wildcards : Nat → Issue
  | excessive_joins : Nat → Issue
  | cartesian_product : Issue
  | missing_table : Str → Issue
deriving DecidableEq

/-- The `{passed, errors, warnings, issues, suggestions}` record each check
returns. -/
structure CheckResult where
  passed : Bool
  errors : List Str
  warnings : List Str
  issues : List Issue
  suggestions : List Str

/-- `self.dangerous_keywords`, in source order. -/
def dangerous_keywords : List Str :=
  [toL "DROP", toL "DELETE", toL "TRUNCATE", toL "ALTER",
   toL "CREATE", toL "REPLACE", toL "INSERT", toL "UPDATE",
   toL "GRANT", toL "REVOKE", toL "EXEC", toL "EXECUTE",
   toL "SHUTDOWN", toL "RENAME", toL "ATTACH", toL "DETACH"]

/-- `self.suspicious_patterns`: each regex with its source text (the text is
what the issue dictionary records). -/
def suspicious_patterns : List (Str × Rx) :=
  [(toL ";\\s*DROP", rseq [Rx.ch ';', Rx.star true spaceC, rlit "DROP"]),
   (toL "--\\s*$", rseq [rlit "--", Rx.star true spaceC, Rx.eol]),
   (toL "\\/\\*.*\\*\\/", rseq [rlit "/*", Rx.star true Rx.anyc, rlit "*/"]),
   (toL "xp_\\w+", rseq [rlit "xp_", rplus wordC]),
   (toL "sp_\\w+", rseq [rlit "sp_", rplus wordC]),
   (toL "0x[0-9a-fA-F]+",
    rseq [rlit "0x", rplus (Rx.cls false [CItem.rng '0' '9', CItem.rng 'a' 'f', CItem.rng 'A' 'F'])]),
   (toL "CHAR\\s*\\(", rseq [rlit "CHAR", Rx.star true spaceC, Rx.ch '(']),
   (toL "INTO\\s+OUTFILE", rseq [rlit "INTO", rplus spaceC, rlit "OUTFILE"]),
   (toL "LOAD_FILE", rlit "LOAD_FILE")]

/-- Regex `'[^']*'` (quoted text, for `_has_multiple_statements`). -/
def rxSingleQuoted : Rx :=
  rseq [Rx.ch qc, Rx.star true (Rx.cls true [CItem.one qc]), Rx.ch qc]

/-- Regex `"[^"]*"`. -/
def rxDoubleQuoted : Rx :=
  rseq [Rx.ch '"', Rx.star true (Rx.cls true [CItem.one '"']), Rx.ch '"']

/-- `_has_multiple_statements`: strip quoted literals, drop trailing
semicolons, any semicolon left means multiple statements. -/
def has_multiple_statements (query : Str) : Bool :=
  let c1 := psub false rxSingleQuoted (fun _ _ => []) query
  let c2 := psub false rxDoubleQuoted (fun _ _ => []) c1
  countSub (pyRstripSemi c2) (toL ";") > 0

/-- Regex `\+\s*@`. -/
def rxPlusAt : Rx := rseq [Rx.ch '+', Rx.star true spaceC, Rx.ch '@']

/-- Regex `\|\|`. -/
def rxConcatOp : Rx := rlit "||"

/-- Regex `CONCAT\s*\(`. -/
def rxConcatFn : Rx := rseq [rlit "CONCAT", Rx.star true spaceC, Rx.ch '(']

/-- `_has_unescaped_input`. -/
def has_unescaped_input (query : Str) : Bool :=
  psearchB true rxPlusAt query || psearchB true rxConcatOp query ||
    psearchB true rxConcatFn query

/-- `_is_read_only`. -/
def is_read_only (query : Str) : Bool :=
  startsAny (pyUpper (pyStrip query)) [toL "SELECT", toL "WITH", toL "EXPLAIN"]

/-- `_check_security`. -/
def check_security (query : Str) (_context : Option QueryContext) : CheckResult :=
  let query_upper := pyUpper query
  let kwHits := dangerous_keywords.filter (fun k => hasSub query_upper k)
  let patHits := suspicious_patterns.filter (fun p => psearchB true p.2 query)
  let multi := has_multiple_statements query
  let unesc := has_unescaped_input query
  let ro := is_read_only query
  { passed := kwHits.isEmpty && patHits.isEmpty && !multi
    errors :=
      kwHits.map (fun k => toL "Dangerous operation detected: " ++ k) ++
      patHits.map (fun p => toL "Suspicious pattern detected: " ++ p.1) ++
      (if multi then [toL "Multiple SQL statements detected"] else [])
    warnings :=
      (if unesc then [toL "Potential unescaped user input detected"] else []) ++
      (if !ro then [toL "Query performs write operations"] else [])
    issues :=
      kwHits.map Issue.dangerous_keyword ++
      patHits.map (fun p => Issue.suspicious_pattern p.1) ++
      (if multi then [Issue.multiple_statements] else [])
    suggestions :=
      if unesc then [toL "Ensure all user inputs are properly parameterized"] else [] }

/-- `_check_balanced_parentheses` (counter scan, failing on a negative
running count). -/
def balParensGo : Int → Str → Bool
  | cnt, [] => cnt == 0
  | cnt, c :: cs =>
    let cnt2 := if c == '(' then cnt + 1 else if c == ')' then cnt - 1 else cnt
    if cnt2 < 0 then false else balParensGo cnt2 cs

def check_balanced_parentheses (query : Str) : Bool := balParensGo 0 query

/-- `_check_balanced_quotes`. -/
def check_balanced_quotes (query : Str) : Bool :=
  countSub query [qc] % 2 == 0 && countSub query (toL "\"") % 2 == 0

/-- `_check_select_structure`. -/
def check_select_structure (query : Str) : Bool :=
  if !(startsAny (pyUpper (pyStrip query)) [toL "SELECT", toL "WITH", toL "EXPLAIN"]) then
    true
  else
    hasSub (pyUpper query) (toL "SELECT") && hasSub (pyUpper query) (toL "FROM")

/-- Regex `SELECT\s+\w+\s+\w+\s+FROM`. -/
def rxSelectMissingComma : Rx :=
  rseq [rlit "SELECT", rplus spaceC, rplus wordC, rplus spaceC, rplus wordC,
        rplus spaceC, rlit "FROM"]

/-- Regex `JOIN\s+\w+\s+WHERE`. -/
def rxJoinWhere : Rx :=
  rseq [rlit "JOIN", rplus spaceC, rplus wordC, rplus spaceC, rlit "WHERE"]

/-- `_check_common_syntax_mistakes`. -/
def check_common_mistakes (query : Str) : List Str :=
  (if psearchB true rxSelectMissingComma query then
    [toL "Possible missing comma between SELECT columns"] else []) ++
  (if psearchB true rxJoinWhere query then [toL "JOIN without ON clause"] else [])

/-- `_check_syntax` (balance checks, optional database oracle, common
mistakes). -/
def checkSyn (conn : Option Conn) (query : Str) (_context : Option QueryContext) :
    CheckResult :=
  let bp := check_balanced_parentheses query
  let bq := check_balanced_quotes query
  let ss := check_select_structure query
  let dbErr := match conn with
    | none => none
    | some cn => cn.explainError query
  let mistakes := check_common_mistakes query
  { passed := bp && bq && dbErr.isNone
    errors :=
      (if !bp then [toL "Unbalanced parentheses"] else []) ++
      (if !bq then [toL "Unbalanced quotes"] else []) ++
      (match dbErr with
       | some e => [toL "SQL syntax error: " ++ e]
       | none => [])
    warnings := (if !ss then [toL "Unusual SELECT statement structure"] else []) ++ mistakes
    issues :=
      (if !bp then [Issue.unbalanced_parentheses] else []) ++
      (if !bq then [Issue.unbalanced_quotes] else []) ++
      (match dbErr with
       | some e => [Issue.syntax_error e]
       | none => [])
    suggestions :=
      if !mistakes.isEmpty then [toL "Review common SQL syntax patterns"] else [] }

/-- The canonical clause order of `_check_clause_order`. -/
def clausesCanonical : List Str :=
  [toL "WITH", toL "SELECT", toL "FROM", toL "JOIN", toL "WHERE",
   toL "GROUP BY", toL "HAVING", toL "ORDER BY", toL "LIMIT"]

/-- Regex `\b<clause>\b`. -/
def clausePat (cl : Str) : Rx := rseq [Rx.bnd, rlitL cl, Rx.bnd]

/-- `_check_clause_order`: `some msg` is the first out-of-order clause's
message, `none` means valid order. -/
def check_clause_order (query : Str) : Option Str :=
  go clausesCanonical (-1)
where
  go : List Str → Int → Option Str
    | [], _ => none
    | cl :: rest, last =>
      match psearchStart true (clausePat cl) query with
      | none => go rest last
      | some p =>
        if (p : Int) < last then some (cl ++ toL " appears in wrong position")
        else go rest (p : Int)

/-- `_check_group_by_validity`. -/
def check_group_by_validity (query : Str) : Bool :=
  hasSub (pyUpper query) (toL "GROUP BY")

/-- Regex `JOIN\s+\w+\s+(?:JOIN|WHERE|GROUP|ORDER|$)`. -/
def rxJoinMissingOn : Rx :=
  rseq [rlit "JOIN", rplus spaceC, rplus wordC, rplus spaceC,
        raltL [rlit "JOIN", rlit "WHERE", rlit "GROUP", rlit "ORDER", Rx.eol]]

/-- Regex `ON\s+([^WHERE|GROUP|ORDER|JOIN]+)` (a negated class over those
letters and the bar, exactly as the source wrote it). -/
def rxOnClause : Rx :=
  rseq [rlit "ON", rplus spaceC,
        Rx.grp 1 (rplus (Rx.cls true
          (['W', 'H', 'E', 'R', 'E', '|', 'G', 'R', 'O', 'U', 'P', '|',
            'O', 'R', 'D', 'E', 'R', '|', 'J', 'O', 'I', 'N'].map CItem.one)))]

/-- `_check_join_conditions`. -/
def check_join_conditions (query : Str) : List Str :=
  let i1 :=
    if psearchB true rxJoinMissingOn query then [toL "JOIN may be missing ON clause"]
    else []
  let i2 :=
    if hasSub (pyUpper query) (toL "ON") then
      match psearch true rxOnClause query with
      | some m =>
        let conditions := capOr m.2.2.2 1
        if !(hasSub (pyUpper conditions) (toL "AND")) &&
            !(hasSub (pyUpper conditions) (toL "OR")) &&
            hasSub conditions (toL "=") then
          if countSub conditions (toL "=") > 1 then
            [toL "Multiple JOIN conditions may need AND/OR operators"]
          else []
        else []
      | none => []
    else []
  i1 ++ i2

/-- `_check_structure`. -/
def check_structure (query : Str) (_context : Option QueryContext) : CheckResult :=
  let up := pyUpper query
  let co := check_clause_order query
  let gbWarn := hasSub up (toL "GROUP BY") && hasSub up (toL "SELECT") &&
    !(check_group_by_validity query)
  let joinWarns := if hasSub up (toL "JOIN") then check_join_conditions query else []
  let subquery_count : Int := (countSub up (toL "SELECT") : Int) - 1
  let subqWarn := subquery_count > 3
  { passed := true
    errors := []
    warnings :=
      (match co with
       | some msg => [toL "Incorrect clause order: " ++ msg]
       | none => []) ++
      (if gbWarn then [toL "GROUP BY clause may have issues"] else []) ++
      joinWarns ++
      (if subqWarn then
        [toL "Too many subqueries (" ++ intDigits subquery_count ++ [')']] else [])
    issues := []
    suggestions :=
      (if gbWarn then [toL "Ensure all non-aggregate SELECT columns are in GROUP BY"] else []) ++
      (if subqWarn then
        [toL "Consider using JOINs or CTEs instead of nested subqueries"] else []) }

/-- `_has_cartesian_product_risk` (same `FROM` pattern as the optimizer's
rule; this check does not strip the split parts). -/
def has_cartesian_product_risk (query : Str) : Bool :=
  match psearch true rxFromTables query with
  | none => false
  | some m =>
    let tables := splitChar ',' (capOr m.2.2.2 1)
    if tables.length > 1 && !(hasSub (pyUpper query) (toL "JOIN")) then
      !(hasSub (pyUpper query) (toL "WHERE"))
    else false

/-- Regex `WHERE.*\b(DATE|YEAR|MONTH|DAY|UPPER|LOWER|TRIM|LENGTH)\s*\(`. -/
def rxFnInWhere1 : Rx :=
  rseq [rlit "WHERE", Rx.star true Rx.anyc, Rx.bnd,
        Rx.grp 1 (raltL [rlit "DATE", rlit "YEAR", rlit "MONTH", rlit "DAY",
                         rlit "UPPER", rlit "LOWER", rlit "TRIM", rlit "LENGTH"]),
        Rx.star true spaceC, Rx.ch '(']

/-- Regex `WHERE.*\b\w+\s*\([^)]*\w+\.[^)]*\)`. -/
def rxFnInWhere2 : Rx :=
  rseq [rlit "WHERE", Rx.star true Rx.anyc, Rx.bnd, rplus wordC,
        Rx.star true spaceC, Rx.ch '(', Rx.star true (Rx.cls true [CItem.one ')']),
        rplus wordC, Rx.ch '.', Rx.star true (Rx.cls true [CItem.one ')']), Rx.ch ')']

/-- `_has_functions_in_where`. -/
def has_functions_in_where (query : Str) : Bool :=
  psearchB true rxFnInWhere1 query || psearchB true rxFnInWhere2 query

/-- Regex `LIKE\s+['\"]%`. -/
def rxLikeLeadingWild : Rx :=
  rseq [rlit "LIKE", rplus spaceC, Rx.cls false [CItem.one qc, CItem.one '"'], Rx.ch '%']

/-- `_check_performance`. -/
def check_performance (query : Str) (_context : Option QueryContext) : CheckResult :=
  let query_upper := pyUpper query
  let wildcard_count := countSub query (toL "*")
  let wWild := wildcard_count > 2
  let wLimit := !(hasSub query_upper (toL "LIMIT")) && !(hasSub query_upper (toL "COUNT("))
  let join_count := countSub query_upper (toL "JOIN")
  let wJoin := join_count > 5
  let cart := has_cartesian_product_risk query
  let fnw := has_functions_in_where query
  let or_count := countSub query_upper (toL " OR ")
  let wOr := or_count > 5
  let likeW := psearchB true rxLikeLeadingWild query
  { passed := true
    errors := []
    warnings :=
      (if wWild then [toL "Too many wildcards (" ++ natDigits wildcard_count ++ [')']] else []) ++
      (if wLimit then [toL "No LIMIT clause found"] else []) ++
      (if wJoin then [toL "Too many JOINs (" ++ natDigits join_count ++ [')']] else []) ++
      (if cart then [toL "Potential cartesian product detected"] else []) ++
      (if fnw then [toL "Functions in WHERE clause may prevent index usage"] else []) ++
      (if wOr then
        [toL "Many OR conditions (" ++ natDigits or_count ++ toL ") may impact performance"]
       else []) ++
      (if likeW then [toL "LIKE with leading wildcard prevents index usage"] else [])
    issues :=
      (if wWild then [Issue.excessive_wildcards wildcard_count] else []) ++
      (if wJoin then [Issue.excessive_joins join_count] else []) ++
      (if cart then [Issue.cartesian_product] else [])
    suggestions :=
      (if wWild then [toL "Specify exact columns instead of using SELECT *"] else []) ++
      (if wLimit then [toL "Consider adding LIMIT 1000"] else []) ++
      (if wJoin then [toL "Consider breaking the query into smaller parts"] else []) ++
      (if cart then [toL "Ensure proper JOIN conditions are specified"] else []) ++
      (if fnw then [toL "Consider restructuring to allow index usage"] else []) ++
      (if wOr then [toL "Consider using IN clause or UNION instead"] else []) ++
      (if likeW then [toL "Consider full-text search or restructuring the query"] else []) }

/-- Regex `FROM\s+(\w+)`. -/
def rxFromTable : Rx := rseq [rlit "FROM", rplus spaceC, Rx.grp 1 (rplus wordC)]

/-- Regex `JOIN\s+(\w+)`. -/
def rxJoinTable : Rx := rseq [rlit "JOIN", rplus spaceC, Rx.grp 1 (rplus wordC)]

/-- `_extract_table_names` (the source's `list(set(...))` is modelled by
first-occurrence dedup; CPython's set order is unspecified and no claim
depends on it). -/
def extract_table_names (query : Str) : List Str :=
  dedupFirst
    ((pfindIter true rxFromTable query).map (fun m => capOr m.2 1) ++
     (pfindIter true rxJoinTable query).map (fun m => capOr m.2 1))

/-- Regex `(\w+)\.(\w+)` (no IGNORECASE flag in the source). -/
def rxTableColumn : Rx :=
  rseq [Rx.grp 1 (rplus wordC), Rx.ch '.', Rx.grp 2 (rplus wordC)]

/-- `_extract_column_references`. -/
def extract_column_references (query : Str) : List (Str × Str) :=
  (pfindIter false rxTableColumn query).map (fun m => (capOr m.2 1, capOr m.2 2))

/-- The warning `_check_schema` emits when it has nothing to check against. -/
def schemaSkippedMsg : Str := toL "Schema validation skipped (no connection or context)"

/-- `_check_schema`. -/
def check_schema (conn : Option Conn) (query : Str) (context : Option QueryContext) :
    CheckResult :=
  match conn, context with
  | none, none =>
    { passed := true, errors := [], warnings := [schemaSkippedMsg],
      issues := [], suggestions := [] }
  | conn, context =>
    let tables := extract_table_names query
    let missing :=
      match conn with
      | some cn => tables.filter (fun t => !((cn.tables.map pyLower).contains (pyLower t)))
      | none => []
    let columns := extract_column_references query
    let colWarns : List (Str × Str) :=
      match context with
      | some ctx =>
        match ctx.schema with
        | some sch =>
          columns.filterMap (fun (tc : Str × Str) =>
            match lookupAssoc sch tc.1 with
            | some info =>
              if !((info.columns.getD []).contains tc.2) then some tc else none
            | none => none)
        | none => []
      | none => []
    { passed := missing.isEmpty
      errors := missing.map (fun t =>
        toL "Table " ++ [qc] ++ t ++ [qc] ++ toL " does not exist")
      warnings := colWarns.map (fun (tc : Str × Str) =>
        toL "Column " ++ [qc] ++ tc.2 ++ [qc] ++ toL " may not exist in table " ++
          [qc] ++ tc.1 ++ [qc])
      issues := missing.map Issue.missing_table
      suggestions := colWarns.map (fun (tc : Str × Str) =>
        toL "Verify column " ++ [qc] ++ tc.2 ++ [qc] ++ toL " exists in " ++
          [qc] ++ tc.1 ++ [qc]) }

/-- Regex `WHERE\s+1\s*=\s*1`. -/
def rxAlwaysTrue : Rx :=
  rseq [rlit "WHERE", rplus spaceC, Rx.ch '1', Rx.star true spaceC, Rx.ch '=',
        Rx.star true spaceC, Rx.ch '1']

/-- Regex `WHERE\s+1\s*=\s*0`. -/
def rxAlwaysFalse : Rx :=
  rseq [rlit "WHERE", rplus spaceC, Rx.ch '1', Rx.star true spaceC, Rx.ch '=',
        Rx.star true spaceC, Rx.ch '0']

/-- Regex `=\s*NULL`. -/
def rxEqNull : Rx := rseq [Rx.ch '=', Rx.star true spaceC, rlit "NULL"]

/-- Regex `WHERE\s+\w+\s*[<>=]+\s*'\d\d\d\d-\d\d-\d\d'` (the source writes
the digit runs with counted repetitions). -/
def rxDateCmp : Rx :=
  rseq [rlit "WHERE", rplus spaceC, rplus wordC, Rx.star true spaceC,
        rplus (Rx.cls false [CItem.one '<', CItem.one '>', CItem.one '=']),
        Rx.star true spaceC, Rx.ch qc,
        digitC, digitC, digitC, digitC, Rx.ch '-', digitC, digitC, Rx.ch '-',
        digitC, digitC, Rx.ch qc]

/-- Regex `WHERE\s+(.*?)(?:GROUP|ORDER|LIMIT|$)`. -/
def rxWhereClause : Rx :=
  rseq [rlit "WHERE", rplus spaceC, Rx.grp 1 (Rx.star false Rx.anyc),
        raltL [rlit "GROUP", rlit "ORDER", rlit "LIMIT", Rx.eol]]

/-- Regex `\s+AND\s+|\s+OR\s+`. -/
def rxAndOrSplit : Rx :=
  Rx.alt (rseq [rplus spaceC, rlit "AND", rplus spaceC])
         (rseq [rplus spaceC, rlit "OR", rplus spaceC])

/-- `_find_duplicate_conditions`. -/
def find_duplicate_conditions (query : Str) : Bool :=
  match psearch true rxWhereClause query with
  | some m =>
    let parts := psplit true rxAndOrSplit (capOr m.2.2.2 1)
    parts.length != parts.dedup.length
  | none => false

/-- Regex `(\w+)\s*=\s*([^\s]+).*AND.*\1\s*=\s*([^\s]+)` (with a
backreference to the first group). -/
def rxContradictory : Rx :=
  rseq [Rx.grp 1 (rplus wordC), Rx.star true spaceC, Rx.ch '=', Rx.star true spaceC,
        Rx.grp 2 (rplus nonSpaceC), Rx.star true Rx.anyc, rlit "AND",
        Rx.star true Rx.anyc, Rx.bref 1, Rx.star true spaceC, Rx.ch '=',
        Rx.star true spaceC, Rx.grp 3 (rplus nonSpaceC)]

/-- `_has_contradictory_conditions`. -/
def has_contradictory_conditions (query : Str) : Bool :=
  match psearch true rxContradictory query with
  | some m => capOr m.2.2.2 2 != capOr m.2.2.2 3
  | none => false

/-- `_check_logic`. -/
def check_logic (query : Str) (_context : Option QueryContext) : CheckResult :=
  let wTrue := psearchB true rxAlwaysTrue query
  let wFalse := psearchB true rxAlwaysFalse query
  let wNull := psearchB true rxEqNull query
  let sDate := psearchB true rxDateCmp query
  let wDup := find_duplicate_conditions query
  let contra := has_contradictory_conditions query
  { passed := !contra
    errors := if contra then [toL "Contradictory conditions detected"] else []
    warnings :=
      (if wTrue then [toL "Always-true condition detected"] else []) ++
      (if wFalse then [toL "Always-false condition detected"] else []) ++
      (if wNull then [toL "Use IS NULL instead of = NULL"] else []) ++
      (if wDup then [toL "Duplicate conditions found"] else [])
    issues := []
    suggestions :=
      (if wNull then [toL "NULL comparisons should use IS NULL or IS NOT NULL"] else []) ++
      (if sDate then [toL "Consider using DATE() function for date comparisons"] else []) ++
      (if wDup then [toL "Remove redundant conditions"] else []) }

/-- Regex `FROM\s+\w+\s+(?:AS\s+)?\w\w?\w?\s` (the short-alias pattern; the
source writes the alias as a counted repetition of one to three word
characters). -/
def rxTableAlias : Rx :=
  rseq [rlit "FROM", rplus spaceC, rplus wordC, rplus spaceC,
        ropt (rseq [rlit "AS", rplus spaceC]),
        wordC, ropt (rseq [wordC, ropt wordC]), spaceC]

/-- Regex `SELECT.*\(.*\).*FROM`. -/
def rxComputedExpr : Rx :=
  rseq [rlit "SELECT", Rx.star true Rx.anyc, Rx.ch '(', Rx.star true Rx.anyc,
        Rx.ch ')', Rx.star true Rx.anyc, rlit "FROM"]

/-- Regex `AS\s+\w+`. -/
def rxAsAlias : Rx := rseq [rlit "AS", rplus spaceC, rplus wordC]

/-- Regex `ORDER\s+BY\s+\d+`. -/
def rxOrderByNum : Rx :=
  rseq [rlit "ORDER", rplus spaceC, rlit "BY", rplus spaceC, rplus digitC]

/-- `_check_best_practices`. -/
def check_best_practices (query : Str) (_context : Option QueryContext) : CheckResult :=
  let up := pyUpper query
  let sTab := hasSub up (toL "JOIN") && !(psearchB true rxTableAlias query)
  let sCol := psearchB true rxComputedExpr query && !(psearchB true rxAsAlias query)
  let sDis := hasSub up (toL "DISTINCT")
  let sUni := hasSub up (toL "UNION") && !(hasSub up (toL "UNION ALL"))
  let wOrd := hasSub up (toL "ORDER BY") && psearchB true rxOrderByNum query
  { passed := true
    errors := []
    warnings := if wOrd then [toL "Ordering by column position is fragile"] else []
    issues := []
    suggestions :=
      (if sTab then [toL "Consider using table aliases for better readability"] else []) ++
      (if sCol then [toL "Consider using column aliases for complex expressions"] else []) ++
      (if sDis then [toL "Verify if DISTINCT is necessary (it can impact performance)"] else []) ++
      (if sUni then [toL "Consider UNION ALL instead of UNION if duplicates are acceptable"] else []) ++
      (if wOrd then [toL "Use column names instead of positions in ORDER BY"] else []) }

/-- `_calculate_risk_level`, as a function of the three result fields it
reads. -/
def calculate_risk_level (security_issues : List Issue) (errors warnings : List Str) :
    Str :=
  if !security_issues.isEmpty then toL "high"
  else if !errors.isEmpty then toL "high"
  else if warnings.length > 3 then toL "medium"
  else toL "low"

/-- `_generate_summary`, as a function of the result fields it reads. -/
def generate_summary (is_valid : Bool) (errors warnings : List Str) : Str :=
  if is_valid then
    if warnings.isEmpty then toL "Query validated successfully with no issues"
    else toL "Query validated with " ++ natDigits warnings.length ++ toL " warnings"
  else
    toL "Query validation failed: " ++ natDigits errors.length ++ toL " errors, " ++
      natDigits warnings.length ++ toL " warnings"

/-- `QueryValidator.validate`'s result dictionary (`timestamp` omitted: wall
clock, outside the model). -/
structure ValidationResult where
  is_valid : Bool
  query : Str
  errors : List Str
  warnings : List Str
  security_issues : List Issue
  syntax_issues : List Issue
  performance_issues : List Issue
  suggestions : List Str
  risk_level : Str
  summary : Str

/-- `QueryValidator.validate`: run the seven checks in order, merge, then
classify risk and summarize.  Every embedded check is total, so the
per-check `except` fallback of the source (which would downgrade a crashed
check to a warning) is dead code here. -/
def validate (conn : Option Conn) (sql_query : Str) (context : Option QueryContext) :
    ValidationResult :=
  let sec := check_security sql_query context
  let syn := checkSyn conn sql_query context
  let stru := check_structure sql_query context
  let perf := check_performance sql_query context
  let sch := check_schema conn sql_query context
  let lg := check_logic sql_query context
  let bpr := check_best_practices sql_query context
  let is_valid := sec.passed && syn.passed && stru.passed && perf.passed &&
    sch.passed && lg.passed && bpr.passed
  let errors := sec.errors ++ syn.errors ++ stru.errors ++ perf.errors ++
    sch.errors ++ lg.errors ++ bpr.errors
  let warnings := sec.warnings ++ syn.warnings ++ stru.warnings ++ perf.warnings ++
    sch.warnings ++ lg.warnings ++ bpr.warnings
  let suggestions := sec.suggestions ++ syn.suggestions ++ stru.suggestions ++
    perf.suggestions ++ sch.suggestions ++ lg.suggestions ++ bpr.suggestions
  { is_valid := is_valid
    query := sql_query
    errors := errors
    warnings := warnings
    security_issues := sec.issues
    syntax_issues := syn.issues
    performance_issues := perf.issues
    suggestions := suggestions
    risk_level := calculate_risk_level sec.issues errors warnings
    summary := generate_summary is_valid errors warnings }

/-! ## Spec-comparison definition for claim C7 -/

/-- The sum of the four `_calculate_improvement_score` deltas other than the
EXISTS/IN one, used to isolate exactly when the +10 delta is contributed. -/
def score_without_exists_delta (original optimized : Str) : Nat :=
  (if hasSub optimized (toL "LIMIT") && !(hasSub original (toL "LIMIT")) then 20 else 0) +
  (if countSub optimized (toL "*") < countSub original (toL "*") then 15 else 0) +
  (if !(hasSub optimized (toL "-- WARNING")) && optimized.length < original.length then 5 else 0) +
  (if hasSub optimized (toL "COUNT(1)") && hasSub original (toL "COUNT(*)") then 5 else 0)

/-! ## General lemmas about the string primitives -/

theorem begMatch_self_append (p b : Str) : begMatch p (p ++ b) = true := by
  induction p with
  | nil => rfl
  | cons c cs ih => simp [begMatch, ih]

theorem hasSub_of_parts (a pat b : Str) : hasSub (a ++ (pat ++ b)) pat = true := by
  induction a with
  | nil =>
    have h := begMatch_self_append pat b
    cases pat with
    | nil => cases b <;> simp_all [hasSub, begMatch]
    | cons p ps => simp_all [hasSub, List.cons_append]
  | cons c cs ih => simp [hasSub, List.cons_append, ih]

theorem endsL_append (a suf : Str) : endsL (a ++ suf) suf = true := by
  unfold endsL
  rw [List.reverse_append]
  exact begMatch_self_append _ _

theorem begMatch_cons_false {p c : Char} (ps : Str) (t : Str) (h : (p == c) = false) :
    begMatch (p :: ps) (c :: t) = false := by
  simp [begMatch, h]

/-- `str.replace` really inserts the replacement wherever the pattern
occurred. -/
theorem replaceGo_has (pat rep : Str) (hp : pat ≠ []) :
    ∀ f (s : Str), s.length ≤ f → hasSub s pat = true →
    ∃ a b, replaceGo pat rep f s = a ++ rep ++ b := by
  intro f
  induction f with
  | zero =>
    intro s hs hsub
    have hnil : s = [] := List.length_eq_zero.mp (Nat.le_zero.mp hs)
    subst hnil
    exfalso
    cases pat with
    | nil => exact hp rfl
    | cons p ps => simp [hasSub, begMatch] at hsub
  | succ m ih =>
    intro s hs hsub
    cases s with
    | nil =>
      exfalso
      cases pat with
      | nil => exact hp rfl
      | cons p ps => simp [hasSub, begMatch] at hsub
    | cons c rest =>
      by_cases hb : begMatch pat (c :: rest) = true
      · exact ⟨[], replaceGo pat rep m (List.drop (pat.length - 1) rest), by
          simp [replaceGo, hb]⟩
      · have hb2 : begMatch pat (c :: rest) = false := by
          simpa using hb
        have hsub2 : hasSub rest pat = true := by
          have h3 := hsub
          simp [hasSub, hb2] at h3
          exact h3
        have hlen : rest.length ≤ m := by
          simp at hs; omega
        obtain ⟨a, b, hab⟩ := ih rest hlen hsub2
        exact ⟨c :: a, b, by simp [replaceGo, hb2, hab]⟩

theorem pyReplace_has (s pat rep : Str) (hp : pat ≠ []) (h : hasSub s pat = true) :
    hasSub (pyReplace s pat rep) rep = true := by
  obtain ⟨a, b, hab⟩ := replaceGo_has pat rep hp s.length s le_rfl h
  unfold pyReplace
  rw [if_neg (by simpa [List.isEmpty_iff] using hp), hab, List.append_assoc]
  exact hasSub_of_parts _ _ _

/-- Case analysis of `_calculate_risk_level`, as a function of the three
fields it reads. -/
theorem risk_spec (S : List Issue) (E W : List Str) :
    (calculate_risk_level S E W = toL "high" ↔ (S ≠ [] ∨ E ≠ [])) ∧
    (calculate_risk_level S E W = toL "medium" ↔ (S = [] ∧ E = [] ∧ W.length > 3)) ∧
    (calculate_risk_level S E W = toL "low" ↔ (S = [] ∧ E = [] ∧ W.length ≤ 3)) := by
  have hML : toL "medium" ≠ toL "low" := by decide
  have hMH : toL "medium" ≠ toL "high" := by decide
  have hLH : toL "low" ≠ toL "high" := by decide
  unfold calculate_risk_level
  rcases S with _ | ⟨s, S⟩ <;> rcases E with _ | ⟨e, E⟩ <;> by_cases hw : W.length > 3 <;>
    simp [List.isEmpty, hw, hML, hMH, hLH, hML.symm, hMH.symm, hLH.symm] <;> omega

/-! ## Claim theorems -/

/-- C8: the subquery-optimization rule is the identity transform: for every
input query and every context, `_optimize_subqueries` returns its input
string unchanged (it only builds an unused EXISTS clause, never mutating the
text). -/
theorem c8_subquery_rule_identity :
    ∀ (query : Str) (context : Option QueryContext),
      optimize_subqueries query context = query := by
  intro q c
  rfl

/-- C9: with no database connection and no context, the schema check passes
(no error, `passed = true`, so `is_valid` is unaffected) and contributes
exactly one warning, which contains "Schema validation skipped" and shows up
in the warnings of the full `validate` result. -/
theorem c9_schema_check_skipped :
    ∀ (query : Str),
      (check_schema none query none).passed = true ∧
      (check_schema none query none).errors = [] ∧
      (check_schema none query none).warnings = [schemaSkippedMsg] ∧
      hasSub schemaSkippedMsg (toL "Schema validation skipped") = true ∧
      schemaSkippedMsg ∈ (validate none query none).warnings := by
  intro q
  refine ⟨rfl, rfl, rfl, by decide, ?_⟩
  have h : schemaSkippedMsg ∈ (check_schema none q none).warnings := by
    rw [show (check_schema none q none).warnings = [schemaSkippedMsg] from rfl]
    exact List.mem_singleton_self _
  show schemaSkippedMsg ∈
    (check_security q none).warnings ++ (checkSyn none q none).warnings ++
      (check_structure q none).warnings ++ (check_performance q none).warnings ++
      (check_schema none q none).warnings ++ (check_logic q none).warnings ++
      (check_best_practices q none).warnings
  simp only [List.mem_append]
  tauto

/-- C10: the whitespace-normalization rule splits the multi-character
operator `!=` apart instead of spacing it, because the `=` pass runs first:
on the input `a!=b` it produces `a! = b` (the spec and the rule's own
operator list call for `a != b`). -/
theorem c10_operator_split_bug :
    normalize_whitespace (toL "a!=b") none = toL "a! = b" := by
  decide

/-- C2: for every result returned by `validate` (any connection, query and
context), `risk_level` is "high" exactly when `security_issues` or `errors`
is non-empty, "medium" exactly when both are empty and more than three
warnings accumulated, and "low" exactly in the remaining case. -/
theorem c2_risk_level_classification :
    ∀ (conn : Option Conn) (q : Str) (c : Option QueryContext),
      ((validate conn q c).risk_level = toL "high" ↔
        ((validate conn q c).security_issues ≠ [] ∨ (validate conn q c).errors ≠ [])) ∧
      ((validate conn q c).risk_level = toL "medium" ↔
        ((validate conn q c).security_issues = [] ∧ (validate conn q c).errors = [] ∧
          (validate conn q c).warnings.length > 3)) ∧
      ((validate conn q c).risk_level = toL "low" ↔
        ((validate conn q c).security_issues = [] ∧ (validate conn q c).errors = [] ∧
          (validate conn q c).warnings.length ≤ 3)) := by
  intro conn q c
  have e : (validate conn q c).risk_level =
      calculate_risk_level (validate conn q c).security_issues
        (validate conn q c).errors (validate conn q c).warnings := rfl
  rw [e]
  exact risk_spec _ _ _

/-- C3 (amended): `improvement_score` is `0` whenever `optimize` leaves the
query unchanged, and always lies in `[0, 100]`; the converse of the zero case
fails (see the counterexample). -/
theorem c3_score_zero_when_unchanged_and_bounded :
    ∀ (q : Str) (c : Option QueryContext),
      ((optimize q c).optimized_query = (optimize q c).original_query →
        (optimize q c).improvement_score = 0) ∧
      (optimize q c).improvement_score ≤ 100 := by
  intro q c
  simp only [optimize]
  constructor
  · intro h
    rw [h]
    unfold calculate_improvement_score
    simp
  · unfold calculate_improvement_score
    split
    · exact Nat.zero_le _
    · exact Nat.min_le_right _ _

/-- C3 counterexample: on `SELECT a FROM t, u LIMIT 5` the optimizer prepends
the cartesian warning comment, so the text changes, yet every score delta is
zero: `improvement_score = 0` with `optimized_query ≠ original_query`,
refuting "score is 0.0 iff optimized equals original". -/
theorem c3_zero_score_with_change_cex :
    (optimize (toL "SELECT a FROM t, u LIMIT 5") none).improvement_score = 0 ∧
    (optimize (toL "SELECT a FROM t, u LIMIT 5") none).optimized_query ≠
      (optimize (toL "SELECT a FROM t, u LIMIT 5") none).original_query := by
  constructor
  · decide
  · decide

/-- C3 amended witness at `SELECT x FROM t LIMIT 5`, which `optimize` leaves
unchanged. -/
theorem c3_score_zero_witness :
    (optimize (toL "SELECT x FROM t LIMIT 5") none).improvement_score = 0 ∧
    (optimize (toL "SELECT x FROM t LIMIT 5") none).improvement_score ≤ 100 :=
  ⟨(c3_score_zero_when_unchanged_and_bounded _ none).1 (by decide),
   (c3_score_zero_when_unchanged_and_bounded _ none).2⟩

/-- C5 (amended): the aggregation-optimization rule is exactly the literal,
case-sensitive replacement of `COUNT(*)` by `COUNT(1)`: its output is
`query.replace('COUNT(*)', 'COUNT(1)')`, so any literal uppercase `COUNT(*)`
occurrence yields a `COUNT(1)` in the rule's output, while occurrences that
differ in case or spacing are left untouched (see the counterexample). -/
theorem c5_aggregation_rule_literal_replace :
    ∀ (query : Str) (c : Option QueryContext),
      optimize_aggregations query c = pyReplace query (toL "COUNT(*)") (toL "COUNT(1)") ∧
      (hasSub query (toL "COUNT(*)") = true →
        hasSub (optimize_aggregations query c) (toL "COUNT(1)") = true) := by
  intro q c
  have e : optimize_aggregations q c = pyReplace q (toL "COUNT(*)") (toL "COUNT(1)") := by
    simp [optimize_aggregations, fix_group_by_columns, optimize_having_clause, ite_self]
  refine ⟨e, fun h => ?_⟩
  rw [e]
  exact pyReplace_has _ _ _ (by decide) h

/-- C5 amended witness. -/
theorem c5_aggregation_rule_witness :
    hasSub (toL "SELECT COUNT(*) FROM t") (toL "COUNT(*)") = true ∧
    hasSub (optimize_aggregations (toL "SELECT COUNT(*) FROM t") none) (toL "COUNT(1)") = true :=
  ⟨by decide, (c5_aggregation_rule_literal_replace _ none).2 (by decide)⟩

/-- C5 counterexample: `SELECT count(*) FROM t` (lowercase `count`) passes
through `optimize` completely unchanged — the occurrence does not become
`COUNT(1)` in any case form, refuting the claimed case/whitespace
insensitivity. -/
theorem c5_lowercase_count_star_cex :
    (optimize (toL "SELECT count(*) FROM t") none).optimized_query =
      toL "SELECT count(*) FROM t" ∧
    hasSub (toL "SELECT count(*) FROM t") (toL "count(*)") = true ∧
    hasSub (optimize (toL "SELECT count(*) FROM t") none).optimized_query
      (toL "COUNT(1)") = false := by
  refine ⟨by decide, by decide, by decide⟩

/-- C7 (amended): with `original ≠ optimized` the score decomposes as the
four other deltas plus exactly 10 when `EXISTS` occurs anywhere in the
optimized text and `IN` occurs anywhere in the original text — the +10 does
not verify an actual IN-to-EXISTS rewrite (see the counterexample), and the
100 cap never binds since the deltas sum to at most 55. -/
theorem c7_exists_delta_condition :
    ∀ (original optimized : Str), original ≠ optimized →
      calculate_improvement_score original optimized =
        score_without_exists_delta original optimized +
        (if hasSub optimized (toL "EXISTS") && hasSub original (toL "IN") then 10 else 0) := by
  intro a b h
  simp only [calculate_improvement_score, score_without_exists_delta, if_neg h]
  split_ifs <;> simp

/-- C7 amended witness. -/
theorem c7_exists_delta_witness :
    toL "a" ≠ toL "ab" ∧
    calculate_improvement_score (toL "a") (toL "ab") =
      score_without_exists_delta (toL "a") (toL "ab") +
      (if hasSub (toL "ab") (toL "EXISTS") && hasSub (toL "a") (toL "IN") then 10 else 0) :=
  ⟨by decide, c7_exists_delta_condition _ _ (by decide)⟩

/-- C7 counterexample: the original already contains `EXISTS` (and an `IN`
list that is not a subquery); the only rewrite `optimize` performs is adding
`LIMIT 100`, no IN-to-EXISTS conversion happens, yet the score is
`30 = 20 + 10`: the +10 was contributed although `EXISTS` did not newly
appear, where the claim predicts `20`. -/
theorem c7_phantom_exists_delta_cex :
    hasSub (toL "SELECT a FROM t WHERE EXISTS (SELECT 1 FROM u) AND b IN (1, 2)")
      (toL "EXISTS") = true ∧
    (optimize (toL "SELECT a FROM t WHERE EXISTS (SELECT 1 FROM u) AND b IN (1, 2)")
        none).optimized_query =
      toL "SELECT a FROM t WHERE EXISTS (SELECT 1 FROM u) AND b IN (1, 2) LIMIT 100" ∧
    (optimize (toL "SELECT a FROM t WHERE EXISTS (SELECT 1 FROM u) AND b IN (1, 2)")
        none).improvement_score = 30 := by
  refine ⟨by decide, by decide, by decide⟩

/-- C1: any query containing a blacklisted keyword as a case-insensitive
substring is rejected: `validate` returns `is_valid = false`,
`risk_level = "high"` and a non-empty `security_issues` list, for every
connection and context. -/
theorem c1_blacklisted_keyword_rejected :
    ∀ (conn : Option Conn) (q : Str) (c : Option QueryContext) (kw : Str),
      kw ∈ dangerous_keywords → hasSub (pyUpper q) kw = true →
      (validate conn q c).is_valid = false ∧
      (validate conn q c).risk_level = toL "high" ∧
      (validate conn q c).security_issues ≠ [] := by
  intro conn q c kw hmem hsub
  have hne : dangerous_keywords.filter (fun k => hasSub (pyUpper q) k) ≠ [] :=
    List.ne_nil_of_mem (List.mem_filter.mpr ⟨hmem, hsub⟩)
  have hemp : (dangerous_keywords.filter (fun k => hasSub (pyUpper q) k)).isEmpty = false := by
    cases h : (dangerous_keywords.filter (fun k => hasSub (pyUpper q) k)).isEmpty
    · rfl
    · exact absurd (List.isEmpty_iff.mp h) hne
  have hsecp : (check_security q c).passed = false := by
    simp only [check_security]
    rw [hemp]
    simp
  have hsecis : (check_security q c).issues ≠ [] := by
    simp only [check_security]
    intro habs
    rcases List.append_eq_nil.mp habs with ⟨h1, _⟩
    rcases List.append_eq_nil.mp h1 with ⟨h2, _⟩
    exact hne (List.map_eq_nil_iff.mp h2)
  have hsecemp : (check_security q c).issues.isEmpty = false := by
    cases h : (check_security q c).issues.isEmpty
    · rfl
    · exact absurd (List.isEmpty_iff.mp h) hsecis
  refine ⟨?_, ?_, ?_⟩
  · simp only [validate]
    rw [hsecp]
    simp
  · simp only [validate]
    unfold calculate_risk_level
    rw [hsecemp]
    simp
  · simp only [validate]
    exact hsecis

/-- C1 witness at `DROP TABLE x` with the keyword `DROP`, no connection and
no context. -/
theorem c1_blacklisted_keyword_witness :
    toL "DROP" ∈ dangerous_keywords ∧
    hasSub (pyUpper (toL "DROP TABLE x")) (toL "DROP") = true ∧
    ((validate none (toL "DROP TABLE x") none).is_valid = false ∧
     (validate none (toL "DROP TABLE x") none).risk_level = toL "high" ∧
     (validate none (toL "DROP TABLE x") none).security_issues ≠ []) :=
  ⟨by decide, by decide,
   c1_blacklisted_keyword_rejected none (toL "DROP TABLE x") none (toL "DROP")
     (by decide) (by decide)⟩

/-- C4 (amended): for a `SELECT` query (case-insensitive prefix) with neither
`LIMIT` nor `COUNT(` as a case-insensitive substring, the limit-injection
rule itself returns the query extended with `LIMIT <default_limit>` as a
suffix, and the rule is idempotent on its own output.  The end-to-end claim
about `optimize()`'s final text fails: a later rule can displace the
appended token (see the counterexample with a trailing `RIGHT JOIN`). -/
theorem c4_limit_rule_appends_and_idempotent :
    ∀ (q : Str) (c : Option QueryContext),
      begMatch (toL "SELECT") (pyUpper q) = true →
      hasSub (pyUpper q) (toL "LIMIT") = false →
      hasSub (pyUpper q) (toL "COUNT(") = false →
      endsL (add_limit_if_missing q c) (toL "LIMIT " ++ natDigits (defaultLimitOf c)) = true ∧
      add_limit_if_missing (add_limit_if_missing q c) c = add_limit_if_missing q c := by
  intro q c hsel hlim hcnt
  have hins : startsAny (pyUpper q) [toL "INSERT", toL "UPDATE", toL "DELETE"] = false := by
    cases hq : pyUpper q with
    | nil => rw [hq] at hsel; exact absurd hsel (by decide)
    | cons a t =>
      rw [hq] at hsel
      have ha : a = 'S' := by
        rw [show toL "SELECT" = 'S' :: toL "ELECT" from rfl] at hsel
        simp only [begMatch, Bool.and_eq_true, beq_iff_eq] at hsel
        exact hsel.1.symm
      subst ha
      simp only [startsAny, List.any_cons, List.any_nil, Bool.or_false]
      rw [show toL "INSERT" = 'I' :: toL "NSERT" from rfl,
          show toL "UPDATE" = 'U' :: toL "PDATE" from rfl,
          show toL "DELETE" = 'D' :: toL "ELETE" from rfl]
      rw [begMatch_cons_false _ _ (by decide), begMatch_cons_false _ _ (by decide),
          begMatch_cons_false _ _ (by decide)]
      simp
  have hout : add_limit_if_missing q c =
      pyRstripSemi q ++ toL " LIMIT " ++ natDigits (defaultLimitOf c) := by
    simp only [add_limit_if_missing]
    rw [hlim, hcnt, hins, hsel]
    simp
  constructor
  · have hout2 : add_limit_if_missing q c =
        (pyRstripSemi q ++ [' ']) ++ (toL "LIMIT " ++ natDigits (defaultLimitOf c)) := by
      rw [hout, show (toL " LIMIT " : Str) = ' ' :: toL "LIMIT " from rfl]
      simp [List.cons_append, List.append_assoc]
    rw [hout2]
    exact endsL_append _ _
  · have hup : pyUpper (add_limit_if_missing q c) =
        (pyUpper (pyRstripSemi q) ++ [' ']) ++
          (toL "LIMIT" ++ ([' '] ++ pyUpper (natDigits (defaultLimitOf c)))) := by
      rw [hout, show (toL " LIMIT " : Str) = [' '] ++ (toL "LIMIT" ++ [' ']) from rfl]
      simp [pyUpper, List.map_append, List.append_assoc,
            show List.map upperCh (toL "LIMIT") = toL "LIMIT" from rfl,
            show upperCh ' ' = ' ' from rfl]
    have hsubL : hasSub (pyUpper (add_limit_if_missing q c)) (toL "LIMIT") = true := by
      rw [hup]
      exact hasSub_of_parts _ _ _
    generalize hgen : add_limit_if_missing q c = out at hsubL ⊢
    simp only [add_limit_if_missing]
    rw [hsubL]
    simp

/-- C4 amended witness at `SELECT a FROM t` with no context
(`default_limit = 100`). -/
theorem c4_limit_rule_witness :
    begMatch (toL "SELECT") (pyUpper (toL "SELECT a FROM t")) = true ∧
    hasSub (pyUpper (toL "SELECT a FROM t")) (toL "LIMIT") = false ∧
    hasSub (pyUpper (toL "SELECT a FROM t")) (toL "COUNT(") = false ∧
    (endsL (add_limit_if_missing (toL "SELECT a FROM t") none)
        (toL "LIMIT " ++ natDigits (defaultLimitOf none)) = true ∧
      add_limit_if_missing (add_limit_if_missing (toL "SELECT a FROM t") none) none =
        add_limit_if_missing (toL "SELECT a FROM t") none) :=
  ⟨by decide, by decide, by decide,
   c4_limit_rule_appends_and_idempotent (toL "SELECT a FROM t") none
     (by decide) (by decide) (by decide)⟩

/-- C4 counterexample: `SELECT a FROM t RIGHT JOIN` satisfies every
hypothesis of the claim (SELECT prefix, no LIMIT, no COUNT(), yet the
RIGHT-to-LEFT JOIN swap captures the appended `LIMIT` token as a table name,
so the final `optimize()` output is `SELECT a FROM LIMIT LEFT JOIN t 100`,
which does not end with `LIMIT 100`. -/
theorem c4_limit_suffix_displaced_cex :
    begMatch (toL "SELECT") (pyUpper (toL "SELECT a FROM t RIGHT JOIN")) = true ∧
    hasSub (pyUpper (toL "SELECT a FROM t RIGHT JOIN")) (toL "LIMIT") = false ∧
    hasSub (pyUpper (toL "SELECT a FROM t RIGHT JOIN")) (toL "COUNT(") = false ∧
    (optimize (toL "SELECT a FROM t RIGHT JOIN") none).optimized_query =
      toL "SELECT a FROM LIMIT LEFT JOIN t 100" ∧
    endsL (optimize (toL "SELECT a FROM t RIGHT JOIN") none).optimized_query
      (toL "LIMIT " ++ natDigits (defaultLimitOf none)) = false := by
  refine ⟨by decide, by decide, by decide, by decide, by decide⟩

/-- C6: on `SELECT * FROM products` with context `{default_limit: 50}` the
optimizer output ends with `LIMIT 50`, the applied-rule list contains the
limit-injection rule's name (` Add Limit If Missing`, as computed from the
method name), and the improvement score is exactly 20. -/
theorem c6_products_limit50_scenario :
    endsL (optimize (toL "SELECT * FROM products")
        (some ⟨some 50, none, none, none⟩)).optimized_query (toL "LIMIT 50") = true ∧
    (toL " Add Limit If Missing") ∈
      (optimize (toL "SELECT * FROM products")
        (some ⟨some 50, none, none, none⟩)).optimizations_applied ∧
    (optimize (toL "SELECT * FROM products")
        (some ⟨some 50, none, none, none⟩)).improvement_score = 20 := by
  refine ⟨by decide, by decide, by decide⟩
